import Mathlib

/-!
Verification of `src/tools/KafkaTopics.cc`, a command-line admin client that
lists, creates and deletes Kafka topics.

The C++ source is shallowly embedded as follows.

* An `Invocation` is the structured view of the process argument vector after
  command-line lexing: for every recognized option of the boost
  `options_description` (lines 36-66 of the source) it records whether the
  option is present and, where applicable, its typed value.  `argc == 1`
  (no arguments beyond the program name) corresponds to no option being
  present, captured by `Invocation.noArgs`.
* `ParseArguments` embeds the C++ function of the same name (lines 30-116).
  Returning `nullptr` for help becomes `ParseResult.showHelp`; each
  `throw std::invalid_argument` / `po::required_option` becomes
  `ParseResult.usageError` with a distinguished `UsageErr` value standing for
  the message thrown there; a successfully filled `Arguments` record becomes
  `ParseResult.ok`.
* The external admin-client library (not part of this repository) is an
  opaque collaborator; it is modelled by an `AdminClient` oracle carrying the
  results its three operations would return.
* `runMain` embeds `main` (lines 119-199) as a pure function from the
  structured invocation and the oracle to a `ProcState` trace: the events
  written to standard output, the events written to the error stream, the
  admin-client configuration of the session if one was constructed
  (line 150), the external operations invoked, and the process exit status.
-/

/-- Operation selector, `Arguments::OpType` (source line 16). -/
inductive OpType
  | create
  | delete
  | list
deriving DecidableEq, Repr

/-- The `Arguments` struct (source lines 14-28).  Default-initialized fields
(`opType{}, partitions{}, replicationFactor{}`, empty strings and vectors)
are filled in by `mkArguments` only for options actually supplied. -/
structure Arguments where
  broker : String
  topic : String
  opType : OpType
  partitions : Int
  replicationFactor : Int
  adminConfig : List String
  topicProps : List String
deriving DecidableEq, Repr

/-- Structured view of the process argument vector: presence and typed value
of every recognized option (source lines 36-66).  `help` covers both
`--help` and `-h`. -/
structure Invocation where
  help : Bool
  bootstrapServer : Option String
  adminConfig : Option (List String)
  list : Bool
  create : Bool
  delete : Bool
  topic : Option String
  partitions : Option Int
  replicationFactor : Option Int
  topicProps : Option (List String)
deriving DecidableEq, Repr

/-- No option at all was supplied: the structured-argv counterpart of
`argc == 1` (source line 71). -/
def Invocation.noArgs (inv : Invocation) : Bool :=
  !inv.help && inv.bootstrapServer.isNone && inv.adminConfig.isNone &&
  !inv.list && !inv.create && !inv.delete && inv.topic.isNone &&
  inv.partitions.isNone && inv.replicationFactor.isNone && inv.topicProps.isNone

/-- The help branch of the parser is taken (source line 71):
`vm.count("help") || argc == 1`. -/
def Invocation.isHelpInvocation (inv : Invocation) : Bool :=
  inv.help || inv.noArgs

/-- The distinct usage errors the parser can report, one per `throw` site of
`ParseArguments` plus the `po::required_option` raised by `po::notify` when
`--bootstrap-server` is missing (source lines 41, 80, 84, 94, 100, 107, 111). -/
inductive UsageErr
  | missingBootstrapServer
  | badOpCount
  | listForbiddenOption
  | createMissingOption
  | deleteMissingTopic
  | deleteForbiddenOption
deriving DecidableEq, Repr

/-- Outcome of `ParseArguments`: `nullptr` (help) / thrown exception /
filled `Arguments`. -/
inductive ParseResult
  | showHelp
  | usageError (e : UsageErr)
  | ok (args : Arguments)
deriving DecidableEq, Repr

/-- The parse outcome is a fully validated request. -/
def ParseResult.isRequest : ParseResult → Bool
  | .ok _ => true
  | _ => false

/-- The parse outcome is a usage error. -/
def ParseResult.isUsageError : ParseResult → Bool
  | .usageError _ => true
  | _ => false

/-- Number of operation selectors present,
`vm.count("list") + vm.count("create") + vm.count("delete")` (source line 82). -/
def opCount (inv : Invocation) : Nat :=
  (if inv.list then 1 else 0) + (if inv.create then 1 else 0) +
    (if inv.delete then 1 else 0)

/-- Operation chosen when exactly one selector is present (source lines 86-87):
`vm.count("list") ? List : (vm.count("create") ? Create : Delete)`. -/
def selectedOp (inv : Invocation) : OpType :=
  if inv.list then .list else if inv.create then .create else .delete

/-- The per-operation `switch` of `ParseArguments` (source lines 89-114),
returning the usage error it throws, if any. -/
def perOpCheck (inv : Invocation) : OpType → Option UsageErr
  | .list =>
    if inv.topic.isSome || inv.partitions.isSome ||
        inv.replicationFactor.isSome || inv.topicProps.isSome then
      some .listForbiddenOption
    else none
  | .create =>
    if !inv.topic.isSome || !inv.partitions.isSome ||
        !inv.replicationFactor.isSome then
      some .createMissingOption
    else none
  | .delete =>
    if !inv.topic.isSome then some .deleteMissingTopic
    else if inv.partitions.isSome || inv.replicationFactor.isSome ||
        inv.topicProps.isSome then
      some .deleteForbiddenOption
    else none

/-- The `Arguments` record produced on success: each bound variable holds the
supplied value, or its default initialization when the option is absent. -/
def mkArguments (inv : Invocation) (broker : String) : Arguments :=
  { broker := broker
    topic := inv.topic.getD ""
    opType := selectedOp inv
    partitions := inv.partitions.getD 0
    replicationFactor := inv.replicationFactor.getD 0
    adminConfig := inv.adminConfig.getD []
    topicProps := inv.topicProps.getD [] }

/-- Embedding of `ParseArguments` (source lines 30-116): help check first
(line 71), then `po::notify` enforcing the required `--bootstrap-server`
(lines 41, 80), then the exactly-one-operation check (line 82), then the
per-operation `switch` (lines 89-114). -/
def ParseArguments (inv : Invocation) : ParseResult :=
  if inv.isHelpInvocation then .showHelp
  else
    match inv.bootstrapServer with
    | none => .usageError .missingBootstrapServer
    | some broker =>
      if opCount inv ≠ 1 then .usageError .badOpCount
      else
        match perOpCheck inv (selectedOp inv) with
        | some e => .usageError e
        | none => .ok (mkArguments inv broker)

/-- `boost::algorithm::split(keyValue, item, boost::is_any_of("="))` on the
character list of a token: split at every occurrence of the character,
keeping empty segments (so the result always has one more element than the
number of occurrences). -/
def splitEqChars : List Char → List (List Char)
  | [] => [[]]
  | c :: cs =>
    if c = '=' then [] :: splitEqChars cs
    else
      match splitEqChars cs with
      | [] => [[c]]
      | h :: t => (c :: h) :: t

/-- The boost split of a token string on the character set `"="`. -/
def splitEq (s : String) : List String :=
  (splitEqChars s.data).map fun l => String.mk l

/-- One iteration of the key=value loops (source lines 141-148 and 171-178):
a token is accepted exactly when the split yields two parts, which are then
given to `put`. -/
def processToken (s : String) : Option (String × String) :=
  match splitEq s with
  | [k, v] => some (k, v)
  | _ => none

/-- The key=value loops of `main`: process the tokens in order, failing on
the first token whose split does not have exactly two parts, and otherwise
collecting the `(key, value)` pairs `put` into the properties object in
order. -/
def buildProperties : List String → Option (List (String × String))
  | [] => some []
  | t :: ts =>
    match processToken t with
    | none => none
    | some kv =>
      match buildProperties ts with
      | none => none
      | some rest => some (kv :: rest)

/-- Result of the external `listTopics` call (source lines 154-164):
error flag, error detail, and the returned topic names in order. -/
structure TopicListResult where
  error : Bool
  detail : String
  topics : List String
deriving DecidableEq, Repr

/-- Result of the external `createTopics` / `deleteTopics` calls. -/
structure OperationResult where
  error : Bool
  detail : String
deriving DecidableEq, Repr

/-- Oracle for the external admin-client library (outside this repository):
the results its operations would return for this invocation. -/
structure AdminClient where
  listResult : TopicListResult
  createResult : OperationResult
  deleteResult : OperationResult
deriving DecidableEq, Repr

/-- The admin-client configuration the session is constructed with (source
lines 137-150): the broker address plus the key=value pairs accepted from
`--admin-config`, in order. -/
structure AdminConf where
  broker : String
  extras : List (String × String)
deriving DecidableEq, Repr

/-- An external admin operation invoked through the session
(source lines 154, 181, 190). -/
inductive ExternalCall
  | listTopics
  | createTopics (topics : List String) (partitions : Int)
      (replicationFactor : Int) (props : List (String × String))
  | deleteTopics (topics : List String)
deriving DecidableEq, Repr

/-- An event written to standard output (`std::cout`): the usage banner of
the help branch (lines 74-76), the `e.what()` text of a caught parse
exception (line 129), or one topic name of the List output (line 163). -/
inductive OutEvent
  | helpText
  | usageMessage (e : UsageErr)
  | topicName (n : String)
deriving DecidableEq, Repr

/-- An event written to the error stream (`std::cerr`): the malformed
`--admin-config` message (line 145), the malformed `--topic-props` message
(line 175), or an `Error: <detail>` line from a failed external operation
(lines 157, 184, 193). -/
inductive ErrEvent
  | adminConfigMalformed
  | topicPropsMalformed
  | externalError (detail : String)
deriving DecidableEq, Repr

/-- Observable trace of one process run: standard-output events, error-stream
events, the configuration of the admin-client session if one was constructed
(source line 150), the external operations invoked, and the exit status. -/
structure ProcState where
  stdoutEv : List OutEvent
  stderrEv : List ErrEvent
  session : Option AdminConf
  calls : List ExternalCall
  exitCode : Nat
deriving DecidableEq, Repr

/-- Embedding of `main` (source lines 119-199): parse (exceptions caught and
printed to standard output, exit 1; help exits 0), then the `--admin-config`
loop, then construction of the admin-client session, then the dispatch on
the operation, with the `--topic-props` loop inside the Create branch. -/
def runMain (inv : Invocation) (client : AdminClient) : ProcState :=
  match ParseArguments inv with
  | .showHelp => ⟨[.helpText], [], none, [], 0⟩
  | .usageError e => ⟨[.usageMessage e], [], none, [], 1⟩
  | .ok args =>
    match buildProperties args.adminConfig with
    | none => ⟨[], [.adminConfigMalformed], none, [], 1⟩
    | some extras =>
      let conf : AdminConf := ⟨args.broker, extras⟩
      match args.opType with
      | .list =>
        if client.listResult.error then
          ⟨[], [.externalError client.listResult.detail], some conf, [.listTopics], 1⟩
        else
          ⟨client.listResult.topics.map OutEvent.topicName, [], some conf, [.listTopics], 0⟩
      | .create =>
        match buildProperties args.topicProps with
        | none => ⟨[], [.topicPropsMalformed], some conf, [], 1⟩
        | some props =>
          let call := ExternalCall.createTopics [args.topic] args.partitions
            args.replicationFactor props
          if client.createResult.error then
            ⟨[], [.externalError client.createResult.detail], some conf, [call], 1⟩
          else
            ⟨[], [], some conf, [call], 0⟩
      | .delete =>
        if client.deleteResult.error then
          ⟨[], [.externalError client.deleteResult.detail], some conf,
            [.deleteTopics [args.topic]], 1⟩
        else
          ⟨[], [], some conf, [.deleteTopics [args.topic]], 0⟩

/-- The per-operation required/forbidden flag table for List, as written in
the specification (section 4.1): nothing required, `--topic`,
`--partitions`, `--replication-factor` and `--topic-props` forbidden. -/
def listTableOk (inv : Invocation) : Bool :=
  !inv.topic.isSome && !inv.partitions.isSome &&
    !inv.replicationFactor.isSome && !inv.topicProps.isSome

/-- The per-operation flag table for Create: `--topic`, `--partitions` and
`--replication-factor` required, nothing forbidden. -/
def createTableOk (inv : Invocation) : Bool :=
  inv.topic.isSome && inv.partitions.isSome && inv.replicationFactor.isSome

/-- The per-operation flag table for Delete: `--topic` required,
`--partitions`, `--replication-factor` and `--topic-props` forbidden. -/
def deleteTableOk (inv : Invocation) : Bool :=
  inv.topic.isSome && !inv.partitions.isSome &&
    !inv.replicationFactor.isSome && !inv.topicProps.isSome

/-- The flag table of the operation the invocation selects. -/
def opTableOk (inv : Invocation) : Bool :=
  match selectedOp inv with
  | .list => listTableOk inv
  | .create => createTableOk inv
  | .delete => deleteTableOk inv

/-! ### Basic lemmas about the key=value splitting -/

theorem splitEqChars_ne_nil : ∀ l : List Char, splitEqChars l ≠ []
  | [] => by simp [splitEqChars]
  | c :: cs => by
    unfold splitEqChars
    by_cases h : c = '='
    · simp [h]
    · rcases hrest : splitEqChars cs with _ | ⟨hd, tl⟩ <;> simp [h, hrest]

theorem splitEqChars_length : ∀ l : List Char, (splitEqChars l).length = l.count '=' + 1
  | [] => by simp [splitEqChars]
  | c :: cs => by
    unfold splitEqChars
    by_cases h : c = '='
    · simp [h, splitEqChars_length cs, List.count_cons]
    · rcases hrest : splitEqChars cs with _ | ⟨hd, tl⟩
      · exact absurd hrest (splitEqChars_ne_nil cs)
      · have hlen := splitEqChars_length cs
        rw [hrest] at hlen
        simp only [List.length_cons] at hlen
        simp [h, hrest, List.count_cons, ← hlen]

theorem splitEq_length (s : String) : (splitEq s).length = s.data.count '=' + 1 := by
  unfold splitEq
  rw [List.length_map, splitEqChars_length]

theorem processToken_eq_none_iff_length (s : String) :
    processToken s = none ↔ (splitEq s).length ≠ 2 := by
  unfold processToken
  rcases splitEq s with _ | ⟨a, _ | ⟨b, _ | ⟨c, t⟩⟩⟩ <;> simp

/-- A token is rejected by the key=value loops exactly when the number of
`=` characters it contains is not exactly one. -/
theorem processToken_eq_none_iff (s : String) :
    processToken s = none ↔ s.data.count '=' ≠ 1 := by
  rw [processToken_eq_none_iff_length, splitEq_length]
  omega

theorem buildProperties_eq_none_iff :
    ∀ ts : List String, buildProperties ts = none ↔ ∃ t ∈ ts, processToken t = none
  | [] => by simp [buildProperties]
  | t :: ts => by
    unfold buildProperties
    have ih := buildProperties_eq_none_iff ts
    rcases h : processToken t with _ | kv
    · simp [h]
    · rcases hb : buildProperties ts with _ | rest
      · obtain ⟨u, hu, hpu⟩ := ih.mp hb
        simp only [h, hb]
        constructor
        · intro _
          exact ⟨u, List.mem_cons_of_mem _ hu, hpu⟩
        · intro _
          trivial
      · simp only [h, hb]
        constructor
        · intro hc
          exact absurd hc (by simp)
        · rintro ⟨u, hu, hpu⟩
          rcases List.mem_cons.mp hu with rfl | hu2
          · exact absurd hpu (by simp [h])
          · exact absurd (ih.mpr ⟨u, hu2, hpu⟩) (by simp [hb])

/-! ### Outcome taxonomy for the dispatcher -/

/-- The `--admin-config` tokens of a validated request are all well formed. -/
def adminConfigOk (args : Arguments) : Bool :=
  (buildProperties args.adminConfig).isSome

/-- The `--topic-props` tokens of a validated request are all well formed. -/
def topicPropsOk (args : Arguments) : Bool :=
  (buildProperties args.topicProps).isSome

/-- The selected external operation reports success (for Create this also
requires the topic-props tokens to be well formed, since the loop precedes
the call). -/
def operationSucceeds (args : Arguments) (client : AdminClient) : Bool :=
  match args.opType with
  | .list => !client.listResult.error
  | .create => topicPropsOk args && !client.createResult.error
  | .delete => !client.deleteResult.error

/-- Argument validation failed: the parse outcome is a usage error. -/
def validationFailed (inv : Invocation) : Bool :=
  (ParseArguments inv).isUsageError

/-- A key=value token of the validated request is malformed: either in
`--admin-config`, or (for Create, once admin-config passed) in
`--topic-props`. -/
def malformedProperty (inv : Invocation) : Bool :=
  match ParseArguments inv with
  | .ok args =>
    !adminConfigOk args ||
      (adminConfigOk args && args.opType == OpType.create && !topicPropsOk args)
  | _ => false

/-- The external admin-client call that the invocation reaches reports an
error. -/
def externalErrorReported (inv : Invocation) (client : AdminClient) : Bool :=
  match ParseArguments inv with
  | .ok args =>
    adminConfigOk args &&
      (match args.opType with
       | .list => client.listResult.error
       | .create => topicPropsOk args && client.createResult.error
       | .delete => client.deleteResult.error)
  | _ => false

/-! ### Concrete invocations and oracle used as test inputs -/

/-- Oracle whose operations all succeed, with the List operation returning
the topics `["a", "b"]` of end-to-end scenario 1. -/
def okClient : AdminClient :=
  ⟨⟨false, "", ["a", "b"]⟩, ⟨false, ""⟩, ⟨false, ""⟩⟩

/-- `--list` alone: exactly one operation selector, the List flag table
satisfied, but no `--bootstrap-server`. -/
def invListNoBroker : Invocation :=
  ⟨false, none, none, true, false, false, none, none, none, none⟩

/-- `--create` alone: exactly one operation selector, no
`--bootstrap-server`. -/
def invCreateNoBroker : Invocation :=
  ⟨false, none, none, false, true, false, none, none, none, none⟩

/-- `--bootstrap-server b --list --admin-config =`: a single `=` token with
empty key and empty value in the admin-config property list. -/
def invAdminConfigEq : Invocation :=
  ⟨false, some "b", some ["="], true, false, false, none, none, none, none⟩

/-- End-to-end scenario 4: `--bootstrap-server broker:9092 --create --topic
t1 --partitions 3 --replication-factor 2 --topic-props retention.ms`
(a topic-props token with no `=`). -/
def invCreateBadProps : Invocation :=
  ⟨false, some "broker:9092", none, false, true, false, some "t1", some 3,
    some 2, some ["retention.ms"]⟩

/-- `--bootstrap-server b` with no operation selector. -/
def invNoOp : Invocation :=
  ⟨false, some "b", none, false, false, false, none, none, none, none⟩

/-- End-to-end scenario 1: `--bootstrap-server broker:9092 --list`. -/
def invListOk : Invocation :=
  ⟨false, some "broker:9092", none, true, false, false, none, none, none, none⟩

/-- End-to-end scenario 2: `--bootstrap-server broker:9092 --create --topic
t1 --partitions 3 --replication-factor 2`. -/
def invCreateOk : Invocation :=
  ⟨false, some "broker:9092", none, false, true, false, some "t1", some 3,
    some 2, none⟩

/-- `--bootstrap-server b --create --topic t --partitions 0
--replication-factor -1`: Create with non-positive numeric values. -/
def invCreateZero : Invocation :=
  ⟨false, some "b", none, false, true, false, some "t", some 0, some (-1),
    none⟩

/-- The argument-less invocation (`argc == 1`). -/
def invEmpty : Invocation :=
  ⟨false, none, none, false, false, false, none, none, none, none⟩

/-! ### Claim theorems -/

/-- C9: an invocation passing a help flag or supplying no arguments at all
yields the ShowHelp outcome: the usage text is printed to standard output,
the process exits 0, and no admin-client session is constructed and no
external call is made. -/
theorem claim_C9 (inv : Invocation) (client : AdminClient)
    (h : inv.help = true ∨ inv.noArgs = true) :
    ParseArguments inv = .showHelp ∧
    runMain inv client = ⟨[.helpText], [], none, [], 0⟩ := by
  have hh : inv.isHelpInvocation = true := by
    rcases h with h | h <;> simp [Invocation.isHelpInvocation, h]
  have hp : ParseArguments inv = .showHelp := by
    unfold ParseArguments
    simp [hh]
  exact ⟨hp, by unfold runMain; rw [hp]⟩

/-- Witness for C9 at the argument-less invocation. -/
theorem claim_C9_witness :
    ParseArguments invEmpty = .showHelp ∧
    runMain invEmpty okClient = ⟨[.helpText], [], none, [], 0⟩ :=
  claim_C9 invEmpty okClient (Or.inr (by decide))

/-- C10: the help check precedes every validation rule, so an invocation
containing a help flag prints usage and exits 0 for every possible setting
of the remaining options — even with `--bootstrap-server` absent or the
operation-selection and per-operation rules violated — and makes no
external call. -/
theorem claim_C10 (b : Option String) (ac : Option (List String))
    (l c d : Bool) (t : Option String) (p r : Option Int)
    (tp : Option (List String)) (client : AdminClient) :
    ParseArguments ⟨true, b, ac, l, c, d, t, p, r, tp⟩ = .showHelp ∧
    runMain ⟨true, b, ac, l, c, d, t, p, r, tp⟩ client =
      ⟨[.helpText], [], none, [], 0⟩ := by
  have hp : ParseArguments ⟨true, b, ac, l, c, d, t, p, r, tp⟩ = .showHelp := by
    unfold ParseArguments
    simp [Invocation.isHelpInvocation]
  exact ⟨hp, by unfold runMain; rw [hp]⟩

/-- C7: a successful List invocation writes to standard output exactly the
topic names returned by the external client, as topic-name events in the
returned order with nothing else, makes exactly the one listTopics call,
and exits 0. -/
theorem claim_C7 (inv : Invocation) (client : AdminClient) (args : Arguments)
    (extras : List (String × String))
    (hp : ParseArguments inv = .ok args)
    (hop : args.opType = OpType.list)
    (hc : buildProperties args.adminConfig = some extras)
    (he : client.listResult.error = false) :
    runMain inv client =
      ⟨client.listResult.topics.map OutEvent.topicName, [],
        some ⟨args.broker, extras⟩, [.listTopics], 0⟩ := by
  unfold runMain
  rw [hp]
  simp [hc, hop, he]

/-- Witness for C7: end-to-end scenario 1, where the client returns topics
`["a", "b"]`; the output is the events `a`, `b` in order and the exit
status is 0. -/
theorem claim_C7_witness :
    runMain invListOk okClient =
      ⟨[OutEvent.topicName "a", OutEvent.topicName "b"], [],
        some ⟨"broker:9092", []⟩, [.listTopics], 0⟩ :=
  claim_C7 invListOk okClient ⟨"broker:9092", "", .list, 0, 0, [], []⟩ []
    (by decide) (by decide) (by decide) (by decide)

/-- Counterexample to C1 as stated: `--list` with no `--bootstrap-server`
selects exactly one operation and satisfies the List flag table, yet the
parser yields a usage error (the missing required `--bootstrap-server`)
instead of accepting the invocation as a valid Request. -/
theorem claim_C1_counterexample :
    Invocation.isHelpInvocation invListNoBroker = false ∧
    opCount invListNoBroker = 1 ∧
    listTableOk invListNoBroker = true ∧
    opTableOk invListNoBroker = true ∧
    (ParseArguments invListNoBroker).isRequest = false ∧
    ParseArguments invListNoBroker = .usageError .missingBootstrapServer := by
  decide

/-- Counterexample to C2 as stated: `--create` with no `--bootstrap-server`
is not a help invocation and has exactly one operation selector, yet the
parser yields a usage error (so UsageError does not hold only when the
selector count differs from one, and parsing does not reach the
per-operation checks). -/
theorem claim_C2_counterexample :
    Invocation.isHelpInvocation invCreateNoBroker = false ∧
    opCount invCreateNoBroker = 1 ∧
    (ParseArguments invCreateNoBroker).isUsageError = true ∧
    ParseArguments invCreateNoBroker = .usageError .missingBootstrapServer := by
  decide

/-- Counterexample to C3 as stated: the token `=` has an empty key and an
empty value around its single `=`, yet it is accepted and the pair of empty
strings is put into the property map; an invocation passing it via
`--admin-config` proceeds past validation and exits 0, rather than
reporting MalformedProperty and exiting 1. -/
theorem claim_C3_counterexample :
    processToken "=" = some ("", "") ∧
    buildProperties ["="] = some [("", "")] ∧
    (runMain invAdminConfigEq okClient).exitCode = 0 ∧
    (runMain invAdminConfigEq okClient).session = some ⟨"b", [("", "")]⟩ := by
  decide

/-- Counterexample to C4 as stated: on end-to-end scenario 4 (Create with a
`--topic-props` token lacking `=`) the process does report the malformed
property and exit 1 with no external operation invoked, but the
admin-client session has already been constructed, contrary to the claim
that validation failure never reaches session construction. -/
theorem claim_C4_counterexample :
    (runMain invCreateBadProps okClient).session.isSome = true ∧
    (runMain invCreateBadProps okClient).exitCode = 1 ∧
    (runMain invCreateBadProps okClient).calls = [] ∧
    (runMain invCreateBadProps okClient).stderrEv = [.topicPropsMalformed] := by
  decide

/-- Counterexample to C6 as stated: an invocation with no operation selector
fails with a usage error whose diagnostic is written to standard output
(`std::cout << e.what()`, source line 129) while the error stream stays
empty, so the diagnostic is not on the error stream and standard output
carries error text. -/
theorem claim_C6_counterexample :
    (runMain invNoOp okClient).stdoutEv = [.usageMessage .badOpCount] ∧
    (runMain invNoOp okClient).stderrEv = [] ∧
    (runMain invNoOp okClient).exitCode = 1 := by
  decide

/-- Counterexample to C8 as stated: Create with `--partitions 0
--replication-factor -1` is accepted as a valid Request whose descriptor
carries partition count 0 and replication factor -1, so returned Create
descriptors need not have positive values. -/
theorem claim_C8_counterexample :
    (ParseArguments invCreateZero).isRequest = true ∧
    ParseArguments invCreateZero = .ok ⟨"b", "t", .create, 0, -1, [], []⟩ := by
  decide

/-! ### Helper lemmas about the per-operation checks -/

theorem perOpCheck_eq_none_iff (inv : Invocation) :
    perOpCheck inv (selectedOp inv) = none ↔ opTableOk inv = true := by
  obtain ⟨hf, bs, ac, l, c, d, t, p, r, tp⟩ := inv
  unfold opTableOk
  cases selectedOp ⟨hf, bs, ac, l, c, d, t, p, r, tp⟩ <;>
    cases t <;> cases p <;> cases r <;> cases tp <;>
    simp [perOpCheck, listTableOk, createTableOk, deleteTableOk]

theorem perOpCheck_errors (inv : Invocation) (op : OpType) (e : UsageErr)
    (h : perOpCheck inv op = some e) :
    e = .listForbiddenOption ∨ e = .createMissingOption ∨
    e = .deleteMissingTopic ∨ e = .deleteForbiddenOption := by
  cases op <;> unfold perOpCheck at h <;> (repeat' split at h) <;> simp_all

/-- Under no help, a supplied `--bootstrap-server` and exactly one selector,
the parse outcome is determined by the per-operation checks. -/
theorem ParseArguments_of_one_op (inv : Invocation) (broker : String)
    (hh : inv.isHelpInvocation = false)
    (hbv : inv.bootstrapServer = some broker)
    (h1 : opCount inv = 1) :
    ParseArguments inv =
      (match perOpCheck inv (selectedOp inv) with
       | some e => ParseResult.usageError e
       | none => ParseResult.ok (mkArguments inv broker)) := by
  unfold ParseArguments
  simp [hh, hbv, h1]

/-- C1 (amended): for every argument vector that is not a help invocation,
supplies `--bootstrap-server`, and selects exactly one operation, the
parser enforces the per-operation flag table: the invocation is accepted as
a valid Request for the selected operation exactly when the flag table of
the selected operation (List forbids topic/partitions/replication-factor/topic-props; Create
requires topic, partitions and replication-factor; Delete requires topic
and forbids partitions/replication-factor/topic-props) is satisfied, and
otherwise it is rejected as a usage error. -/
theorem claim_C1 (inv : Invocation)
    (hh : inv.isHelpInvocation = false)
    (hb : inv.bootstrapServer.isSome = true)
    (h1 : opCount inv = 1) :
    ((∃ a, ParseArguments inv = .ok a ∧ a.opType = selectedOp inv) ↔
      opTableOk inv = true) ∧
    (opTableOk inv = false → (ParseArguments inv).isUsageError = true) := by
  obtain ⟨broker, hbv⟩ := Option.isSome_iff_exists.mp hb
  have hpar := ParseArguments_of_one_op inv broker hh hbv h1
  rcases hpo : perOpCheck inv (selectedOp inv) with _ | e <;> rw [hpo] at hpar
  · have htab := (perOpCheck_eq_none_iff inv).mp hpo
    refine ⟨⟨fun _ => htab, fun _ => ⟨mkArguments inv broker, hpar, rfl⟩⟩, ?_⟩
    intro hfalse
    rw [htab] at hfalse
    exact absurd hfalse (by simp)
  · constructor
    · constructor
      · rintro ⟨a, ha, -⟩
        rw [hpar] at ha
        exact absurd ha (by simp)
      · intro htrue
        have := (perOpCheck_eq_none_iff inv).mpr htrue
        rw [hpo] at this
        exact absurd this (by simp)
    · intro _
      rw [hpar]
      rfl

/-- Witness for C1 (amended) at end-to-end scenario 2: the well-formed
Create invocation satisfies its table and is accepted. -/
theorem claim_C1_witness :
    ((∃ a, ParseArguments invCreateOk = .ok a ∧
        a.opType = selectedOp invCreateOk) ↔ opTableOk invCreateOk = true) ∧
    (opTableOk invCreateOk = false →
      (ParseArguments invCreateOk).isUsageError = true) :=
  claim_C1 invCreateOk (by decide) (by decide) (by decide)

/-- C2 (amended): for every argument vector that is not a help invocation
and supplies the required `--bootstrap-server`, the parser yields the
operation-count usage error exactly when the number of selectors among
`--list`/`--create`/`--delete` is not one; when exactly one is present,
parsing proceeds to the per-operation checks, yielding either a valid
Request or one of the per-operation usage errors. -/
theorem claim_C2 (inv : Invocation)
    (hh : inv.isHelpInvocation = false)
    (hb : inv.bootstrapServer.isSome = true) :
    (ParseArguments inv = .usageError .badOpCount ↔ opCount inv ≠ 1) ∧
    (opCount inv = 1 →
      (∃ a, ParseArguments inv = .ok a) ∨
      (∃ e, ParseArguments inv = .usageError e ∧
        (e = .listForbiddenOption ∨ e = .createMissingOption ∨
         e = .deleteMissingTopic ∨ e = .deleteForbiddenOption))) := by
  obtain ⟨broker, hbv⟩ := Option.isSome_iff_exists.mp hb
  by_cases h1 : opCount inv = 1
  · have hpar := ParseArguments_of_one_op inv broker hh hbv h1
    constructor
    · rw [hpar]
      constructor
      · intro hbad
        rcases hpo : perOpCheck inv (selectedOp inv) with _ | e <;>
          rw [hpo] at hbad
        · exact absurd hbad (by simp)
        · have := perOpCheck_errors inv (selectedOp inv) e hpo
          simp only [ParseResult.usageError.injEq] at hbad
          rcases this with h | h | h | h <;> simp [h] at hbad
      · intro hne
        exact absurd h1 hne
    · intro _
      rcases hpo : perOpCheck inv (selectedOp inv) with _ | e <;>
        rw [hpo] at hpar
      · exact Or.inl ⟨mkArguments inv broker, hpar⟩
      · exact Or.inr ⟨e, hpar, perOpCheck_errors inv (selectedOp inv) e hpo⟩
  · have hpar : ParseArguments inv = .usageError .badOpCount := by
      unfold ParseArguments
      simp [hh, hbv, h1]
    exact ⟨by simp [hpar, h1], fun h => absurd h h1⟩

/-- Witness for C2 (amended): with `--bootstrap-server b` and no operation
selector the parser yields the operation-count usage error. -/
theorem claim_C2_witness :
    (ParseArguments invNoOp = .usageError .badOpCount ↔ opCount invNoOp ≠ 1) ∧
    (opCount invNoOp = 1 →
      (∃ a, ParseArguments invNoOp = .ok a) ∨
      (∃ e, ParseArguments invNoOp = .usageError e ∧
        (e = .listForbiddenOption ∨ e = .createMissingOption ∨
         e = .deleteMissingTopic ∨ e = .deleteForbiddenOption))) :=
  claim_C2 invNoOp (by decide) (by decide)

/-- C3 (amended): a token supplied to `--admin-config` or `--topic-props`
is rejected as MalformedProperty exactly when the number of `=` characters
it contains is not exactly one — tokens with exactly one `=` are accepted
even when the key or the value part is empty — and processing a property
list fails exactly when it contains such a token, with the two parts of
each accepted token put into the property map in order; a malformed admin-config
list makes the process write the admin-config diagnostic and exit 1, and a
malformed topic-props list of a Create request makes it write the
topic-props diagnostic and exit 1. -/
theorem claim_C3 (t : String) (ts : List String) :
    (processToken t = none ↔ t.data.count '=' ≠ 1) ∧
    (buildProperties ts = none ↔ ∃ u ∈ ts, u.data.count '=' ≠ 1) ∧
    (∀ kv rest, processToken t = some kv → buildProperties ts = some rest →
      buildProperties (t :: ts) = some (kv :: rest)) ∧
    (∀ (inv : Invocation) (client : AdminClient) (args : Arguments),
      ParseArguments inv = .ok args → buildProperties args.adminConfig = none →
      runMain inv client = ⟨[], [.adminConfigMalformed], none, [], 1⟩) ∧
    (∀ (inv : Invocation) (client : AdminClient) (args : Arguments)
        (extras : List (String × String)),
      ParseArguments inv = .ok args → args.opType = OpType.create →
      buildProperties args.adminConfig = some extras →
      buildProperties args.topicProps = none →
      runMain inv client =
        ⟨[], [.topicPropsMalformed], some ⟨args.broker, extras⟩, [], 1⟩) := by
  refine ⟨processToken_eq_none_iff t, ?_, ?_, ?_, ?_⟩
  · rw [buildProperties_eq_none_iff]
    constructor
    · rintro ⟨u, hu, hpu⟩
      exact ⟨u, hu, (processToken_eq_none_iff u).mp hpu⟩
    · rintro ⟨u, hu, hcu⟩
      exact ⟨u, hu, (processToken_eq_none_iff u).mpr hcu⟩
  · intro kv rest h1 h2
    simp [buildProperties, h1, h2]
  · intro inv client args hp hc
    unfold runMain
    rw [hp]
    simp [hc]
  · intro inv client args extras hp hop hc ht
    unfold runMain
    rw [hp]
    simp [hc, hop, ht]

/-- Witness for C3 (amended): the two-token list `a=1 b=2` is accepted with
both pairs in the map, and the token `retention.ms` (no `=`) is rejected. -/
theorem claim_C3_witness :
    buildProperties ["a=1", "b=2"] = some [("a", "1"), ("b", "2")] ∧
    (processToken "retention.ms" = none ↔
      "retention.ms".data.count '=' ≠ 1) :=
  ⟨(claim_C3 "a=1" ["b=2"]).2.2.1 ("a", "1") [("b", "2")] (by decide)
      (by decide),
    (claim_C3 "retention.ms" []).1⟩

/-- C4 (amended): a Create invocation whose `--topic-props` list contains a
malformed token (its `--admin-config` list being well formed) reports
MalformedProperty on the error stream and exits 1 without invoking any
external admin operation; the admin-client session, however, has already
been constructed when the malformed token is detected. -/
theorem claim_C4 (inv : Invocation) (client : AdminClient) (args : Arguments)
    (extras : List (String × String))
    (hp : ParseArguments inv = .ok args)
    (hop : args.opType = OpType.create)
    (hc : buildProperties args.adminConfig = some extras)
    (ht : buildProperties args.topicProps = none) :
    runMain inv client =
      ⟨[], [.topicPropsMalformed], some ⟨args.broker, extras⟩, [], 1⟩ := by
  unfold runMain
  rw [hp]
  simp [hc, hop, ht]

/-- Witness for C4 (amended) at end-to-end scenario 4. -/
theorem claim_C4_witness :
    runMain invCreateBadProps okClient =
      ⟨[], [.topicPropsMalformed], some ⟨"broker:9092", []⟩, [], 1⟩ :=
  claim_C4 invCreateBadProps okClient
    ⟨"broker:9092", "t1", .create, 3, 2, [], ["retention.ms"]⟩ []
    (by decide) (by decide) (by decide) (by decide)

/-- C8 (amended): every Create request descriptor the parser returns has
`--topic`, `--partitions` and `--replication-factor` present in the
invocation, and carries the supplied numeric values unchanged; no
positivity or range check is applied to them. -/
theorem claim_C8 (inv : Invocation) (args : Arguments)
    (hp : ParseArguments inv = .ok args)
    (hop : args.opType = OpType.create) :
    inv.topic.isSome = true ∧ inv.partitions.isSome = true ∧
    inv.replicationFactor.isSome = true ∧
    args.partitions = inv.partitions.getD 0 ∧
    args.replicationFactor = inv.replicationFactor.getD 0 := by
  unfold ParseArguments at hp
  split at hp
  · exact absurd hp (by simp)
  · split at hp
    · exact absurd hp (by simp)
    · split at hp
      · exact absurd hp (by simp)
      · split at hp
        · exact absurd hp (by simp)
        · rename_i hpo
          injection hp with ha
          subst ha
          have hsel : selectedOp inv = OpType.create := hop
          rw [hsel] at hpo
          simp only [perOpCheck] at hpo
          split at hpo
          · exact absurd hpo (by simp)
          · rename_i hcond
            simp at hcond
            obtain ⟨⟨h1, h2⟩, h3⟩ := hcond
            exact ⟨Option.isSome_iff_ne_none.mpr h1,
              Option.isSome_iff_ne_none.mpr h2,
              Option.isSome_iff_ne_none.mpr h3, rfl, rfl⟩

/-- Witness for C8 (amended): the accepted zero/negative Create invocation
has all three options present and its values 0 and -1 pass through
unchanged. -/
theorem claim_C8_witness :
    invCreateZero.topic.isSome = true ∧
    invCreateZero.partitions.isSome = true ∧
    invCreateZero.replicationFactor.isSome = true ∧
    (⟨"b", "t", .create, 0, -1, [], []⟩ : Arguments).partitions =
      invCreateZero.partitions.getD 0 ∧
    (⟨"b", "t", .create, 0, -1, [], []⟩ : Arguments).replicationFactor =
      invCreateZero.replicationFactor.getD 0 :=
  claim_C8 invCreateZero ⟨"b", "t", .create, 0, -1, [], []⟩ (by decide)
    (by decide)

/-- C5: the process exit status is 0 exactly when help was displayed or the
selected operation succeeded (its property lists well formed and the
external call reporting no error), and 1 exactly when argument validation
failed, a key=value token was malformed, or the external admin-client call
reported an error. -/
theorem claim_C5 (inv : Invocation) (client : AdminClient) :
    ((runMain inv client).exitCode = 0 ↔
      (ParseArguments inv = .showHelp ∨
        ∃ args, ParseArguments inv = .ok args ∧ adminConfigOk args = true ∧
          operationSucceeds args client = true)) ∧
    ((runMain inv client).exitCode = 1 ↔
      (validationFailed inv = true ∨ malformedProperty inv = true ∨
        externalErrorReported inv client = true)) := by
  unfold runMain validationFailed malformedProperty externalErrorReported
  rcases hp : ParseArguments inv with _ | e | args
  · simp [ParseResult.isUsageError]
  · simp [ParseResult.isUsageError]
  · rcases hc : buildProperties args.adminConfig with _ | extras
    · simp [ParseResult.isUsageError, adminConfigOk, hc]
    · rcases hop : args.opType
      case create =>
        rcases ht : buildProperties args.topicProps with _ | props
        · simp [ParseResult.isUsageError, adminConfigOk, topicPropsOk,
            operationSucceeds, hc, hop, ht]
        · rcases he : client.createResult.error <;>
            simp [ParseResult.isUsageError, adminConfigOk, topicPropsOk,
              operationSucceeds, hc, hop, ht, he]
      case delete =>
        rcases he : client.deleteResult.error <;>
          simp [ParseResult.isUsageError, adminConfigOk, topicPropsOk,
            operationSucceeds, hc, hop, he]
      case list =>
        rcases he : client.listResult.error <;>
          simp [ParseResult.isUsageError, adminConfigOk, topicPropsOk,
            operationSucceeds, hc, hop, he]

/-- C6 (amended): a usage-error diagnostic is written to standard output
with the error stream left empty; every other failure (malformed property
token or external error) writes its diagnostic to the error stream with
nothing on standard output; on success the error stream is empty and
standard output carries only help text or List topic names. -/
theorem claim_C6 (inv : Invocation) (client : AdminClient) :
    (∀ e, ParseArguments inv = .usageError e →
      (runMain inv client).stdoutEv = [.usageMessage e] ∧
      (runMain inv client).stderrEv = []) ∧
    ((runMain inv client).exitCode = 1 →
      (ParseArguments inv).isUsageError = false →
      (runMain inv client).stdoutEv = [] ∧
      (runMain inv client).stderrEv ≠ []) ∧
    ((runMain inv client).exitCode = 0 →
      (runMain inv client).stderrEv = [] ∧
      ∀ ev ∈ (runMain inv client).stdoutEv,
        ev = .helpText ∨ ∃ n, ev = .topicName n) := by
  unfold runMain
  rcases hp : ParseArguments inv with _ | e | args
  · simp [ParseResult.isUsageError]
  · simp [ParseResult.isUsageError]
  · rcases hc : buildProperties args.adminConfig with _ | extras
    · simp [ParseResult.isUsageError, hc]
    · rcases hop : args.opType
      case create =>
        rcases ht : buildProperties args.topicProps with _ | props
        · simp [ParseResult.isUsageError, hc, hop, ht]
        · rcases he : client.createResult.error <;>
            simp [ParseResult.isUsageError, hc, hop, ht, he]
      case delete =>
        rcases he : client.deleteResult.error <;>
          simp [ParseResult.isUsageError, hc, hop, he]
      case list =>
        rcases he : client.listResult.error <;>
          simp [ParseResult.isUsageError, hc, hop, he]

/-- Witness for C6 (amended): on the selector-less invocation the usage
diagnostic lands on standard output and the error stream is empty. -/
theorem claim_C6_witness :
    (runMain invNoOp okClient).stdoutEv = [.usageMessage .badOpCount] ∧
    (runMain invNoOp okClient).stderrEv = [] :=
  (claim_C6 invNoOp okClient).1 .badOpCount (by decide)
